import Mathlib

/-!
Shallow embedding of the Digital Wallet API money-movement core:
the balance / add-money / send-money routes of
src/backend/src/routes/wallet.js, the transactions routes of
src/backend/src/routes/auth.js, and the storage constraints declared by
the migrations in src/backend/src/utils/redis.js (migrate.js part).
Fixed-point currency values (DECIMAL(15,2)) are modelled as Int in minor
units; UUID identifiers and timestamps become Nat; fallible routes return
Except. Storage faults that the database may raise inside an atomic unit
are modelled by explicit Boolean fault flags on each write.
-/

structure User where
  id : Nat
  email : String
  name : String
  phone : String
  is_active : Bool
  deriving DecidableEq, Repr

structure Wallet where
  user_id : Nat
  balance : Int
  deriving DecidableEq, Repr

inductive TxType where
  | add_money
  | send_money
  | receive_money
  deriving DecidableEq, Repr

inductive TxStatus where
  | pending
  | completed
  | failed
  deriving DecidableEq, Repr

structure Transaction where
  id : Nat
  sender_id : Option Nat
  recipient_id : Option Nat
  amount : Int
  transaction_type : TxType
  status : TxStatus
  payment_method : Option String
  note : Option String
  reference_id : String
  created_at : Nat
  deriving DecidableEq, Repr

/-- The three tables of the ledger store (users, wallets, transactions). -/
structure DBState where
  users : List User
  wallets : List Wallet
  transactions : List Transaction
  deriving DecidableEq, Repr

/-- Failure outcomes of the wallet routes. storageError stands for any
error caught by the catch block of a route (the route answers HTTP 500
after ROLLBACK); the other constructors are the named business failures
the routes answer explicitly. -/
inductive WErr where
  | selfTransfer
  | senderWalletNotFound
  | insufficientBalance
  | recipientNotFound
  | walletNotFound
  | storageError
  deriving DecidableEq, Repr

/-- SELECT balance FROM wallets WHERE user_id = $1 (first row). -/
def lookupBalance (ws : List Wallet) (uid : Nat) : Option Int :=
  (ws.find? (fun w => w.user_id == uid)).map Wallet.balance

/-- SELECT id, name, email FROM users WHERE id = $1 AND is_active = true. -/
def findActiveUser (us : List User) (uid : Nat) : Option User :=
  us.find? (fun u => u.id == uid && u.is_active)

/-- INSERT INTO transactions, subject to the UNIQUE constraint the
migrations declare on reference_id: the insert fails (none) when any row
already present — including a row written earlier inside the same atomic
unit — carries the same reference_id; otherwise the row is appended. -/
def insertTxChecked (txs : List Transaction) (t : Transaction) :
    Option (List Transaction) :=
  if txs.all (fun u => !(u.reference_id == t.reference_id)) then some (txs ++ [t])
  else none

/-- The row update of UPDATE wallets SET balance = balance + d WHERE user_id = uid. -/
def updF (uid : Nat) (d : Int) (w : Wallet) : Wallet :=
  if w.user_id == uid then { w with balance := w.balance + d } else w

/-- UPDATE wallets SET balance = balance + d WHERE user_id = uid, subject to
the storage-layer constraint CHECK (balance >= 0) declared on the wallets
table by the migrations: if any updated row would go negative the whole
statement fails (none), otherwise all matching rows are updated. -/
def updateWalletsChecked (ws : List Wallet) (uid : Nat) (d : Int) :
    Option (List Wallet) :=
  if ws.all (fun w => !(w.user_id == uid) || decide (0 ≤ w.balance + d)) then
    some (ws.map (updF uid d))
  else none

/-- The send_money row inserted by POST /send-money. -/
def sendRow (s r : Nat) (amt : Int) (note : Option String) (ref : String)
    (tid now : Nat) : Transaction :=
  { id := tid, sender_id := some s, recipient_id := some r, amount := amt,
    transaction_type := TxType.send_money, status := TxStatus.completed,
    payment_method := none, note := note, reference_id := ref, created_at := now }

/-- The receive_money row inserted by POST /send-money (same sender,
recipient, amount, note and reference id as the send row). -/
def recvRow (s r : Nat) (amt : Int) (note : Option String) (ref : String)
    (tid now : Nat) : Transaction :=
  { id := tid, sender_id := some s, recipient_id := some r, amount := amt,
    transaction_type := TxType.receive_money, status := TxStatus.completed,
    payment_method := none, note := note, reference_id := ref, created_at := now }

/-- The add_money row inserted by POST /add-money: only sender_id is set,
recipient_id stays NULL. -/
def depRow (uid : Nat) (amt : Int) (pm ref : String) (tid now : Nat) :
    Transaction :=
  { id := tid, sender_id := some uid, recipient_id := none, amount := amt,
    transaction_type := TxType.add_money, status := TxStatus.completed,
    payment_method := some pm, note := none, reference_id := ref, created_at := now }

/-- Result payload of POST /send-money (data field of the 200 response). -/
structure SendResult where
  transactionId : Nat
  amount : Int
  newBalance : Int
  recipientId : Nat
  recipientName : String
  recipientEmail : String
  note : Option String
  referenceId : String
  deriving DecidableEq, Repr

/-- Result payload of POST /add-money. -/
structure DepositResult where
  transactionId : Nat
  amount : Int
  newBalance : Int
  paymentMethod : String
  referenceId : String
  deriving DecidableEq, Repr

/-- The write sequence of POST /send-money inside BEGIN..COMMIT: insert the
send row, insert the receive row (both subject to the UNIQUE reference_id
constraint), update the sender balance (RETURNING balance), update the
recipient balance (both subject to CHECK (balance >= 0)). f1..f4 inject a
storage fault at the corresponding write; any fault or constraint violation
aborts the whole unit (the route runs ROLLBACK in its catch block), so an
error result publishes none of the writes. -/
def transferWrites (f1 f2 f3 f4 : Bool) (db : DBState) (s r : Nat)
    (recip : User) (amt : Int) (note : Option String) (ref : String)
    (t1 t2 now : Nat) : Except WErr (DBState × SendResult) :=
  match (if f1 then none else insertTxChecked db.transactions (sendRow s r amt note ref t1 now)) with
  | none => .error .storageError
  | some txs1 =>
    match (if f2 then none else insertTxChecked txs1 (recvRow s r amt note ref t2 now)) with
    | none => .error .storageError
    | some txs2 =>
      match (if f3 then none else updateWalletsChecked db.wallets s (-amt)) with
      | none => .error .storageError
      | some ws1 =>
        match (if f4 then none else updateWalletsChecked ws1 r amt) with
        | none => .error .storageError
        | some ws2 =>
          match lookupBalance ws1 s with
          | none => .error .storageError
          | some nb =>
            .ok ({ db with wallets := ws2, transactions := txs2 },
                 { transactionId := t1, amount := amt, newBalance := nb,
                   recipientId := recip.id, recipientName := recip.name,
                   recipientEmail := recip.email, note := note, referenceId := ref })

/-- POST /send-money: reject self transfer before any storage access, read
the sender balance (plain SELECT, no FOR UPDATE), reject insufficient
balance, check the recipient exists and is active, then run the four
writes as one atomic unit. -/
def sendMoneyF (f1 f2 f3 f4 : Bool) (db : DBState) (s r : Nat) (amt : Int)
    (note : Option String) (ref : String) (t1 t2 now : Nat) :
    Except WErr (DBState × SendResult) :=
  if s == r then .error .selfTransfer
  else
    match lookupBalance db.wallets s with
    | none => .error .senderWalletNotFound
    | some b =>
      if b < amt then .error .insufficientBalance
      else
        match findActiveUser db.users r with
        | none => .error .recipientNotFound
        | some recip => transferWrites f1 f2 f3 f4 db s r recip amt note ref t1 t2 now

/-- POST /send-money without injected storage faults. -/
def sendMoney (db : DBState) (s r : Nat) (amt : Int) (note : Option String)
    (ref : String) (t1 t2 now : Nat) : Except WErr (DBState × SendResult) :=
  sendMoneyF false false false false db s r amt note ref t1 t2 now

/-- The database state visible after POST /send-money returns: the new state
on COMMIT, the unchanged pre-state after ROLLBACK on any failure. -/
def sendMoneyPostF (f1 f2 f3 f4 : Bool) (db : DBState) (s r : Nat) (amt : Int)
    (note : Option String) (ref : String) (t1 t2 now : Nat) : DBState :=
  match sendMoneyF f1 f2 f3 f4 db s r amt note ref t1 t2 now with
  | .ok (db2, _) => db2
  | .error _ => db

/-- Post-state of the fault-free POST /send-money. -/
def sendMoneyPost (db : DBState) (s r : Nat) (amt : Int) (note : Option String)
    (ref : String) (t1 t2 now : Nat) : DBState :=
  sendMoneyPostF false false false false db s r amt note ref t1 t2 now

/-- POST /add-money: one atomic unit inserting the add_money row (subject
to the UNIQUE reference_id constraint) and incrementing the wallet balance;
a missing wallet row makes the RETURNING read fail, which the catch block
turns into a rolled-back storage error. -/
def addMoneyF (f1 f2 : Bool) (db : DBState) (uid : Nat) (amt : Int)
    (pm ref : String) (tid now : Nat) : Except WErr (DBState × DepositResult) :=
  match (if f1 then none else insertTxChecked db.transactions (depRow uid amt pm ref tid now)) with
  | none => .error .storageError
  | some txs1 =>
    match (if f2 then none else updateWalletsChecked db.wallets uid amt) with
    | none => .error .storageError
    | some ws1 =>
      match lookupBalance ws1 uid with
      | none => .error .storageError
      | some nb =>
        .ok ({ db with wallets := ws1, transactions := txs1 },
             { transactionId := tid, amount := amt, newBalance := nb,
               paymentMethod := pm, referenceId := ref })

/-- POST /add-money without injected storage faults. -/
def addMoney (db : DBState) (uid : Nat) (amt : Int) (pm ref : String)
    (tid now : Nat) : Except WErr (DBState × DepositResult) :=
  addMoneyF false false db uid amt pm ref tid now

/-- POST /auth/register: reject a duplicate email or phone, reject a
clashing primary key, then insert the user row and its zero-balance wallet
row as one atomic unit. -/
def registerUser (db : DBState) (uid : Nat) (email name phone : String) :
    Option DBState :=
  if db.users.any (fun u => u.email == email || u.phone == phone) then none
  else if db.users.any (fun u => u.id == uid) then none
  else
    some { db with
           users := db.users ++ [{ id := uid, email := email, name := name,
                                   phone := phone, is_active := true }],
           wallets := db.wallets ++ [{ user_id := uid, balance := 0 }] }

/-- The empty ledger store. -/
def emptyState : DBState := { users := [], wallets := [], transactions := [] }

/-- One committed state transition of the system: a successful registration,
deposit or transfer. Failed operations leave the state unchanged, which the
reflexive closure already covers. -/
inductive Step : DBState → DBState → Prop where
  | reg (db db2 : DBState) (uid : Nat) (email name phone : String) :
      registerUser db uid email name phone = some db2 → Step db db2
  | dep (db db2 : DBState) (uid : Nat) (amt : Int) (pm ref : String)
      (tid now : Nat) (res : DepositResult) :
      addMoney db uid amt pm ref tid now = .ok (db2, res) → Step db db2
  | xfer (db db2 : DBState) (s r : Nat) (amt : Int) (note : Option String)
      (ref : String) (t1 t2 now : Nat) (res : SendResult) :
      sendMoney db s r amt note ref t1 t2 now = .ok (db2, res) → Step db db2

/-- States reachable from the empty store by committed operations. -/
def Reachable (db : DBState) : Prop :=
  Relation.ReflTransGen Step emptyState db

/-- One Redis balance cache entry: key balance:uid, cached value, TTL in
seconds as passed to setEx. -/
structure CacheEntry where
  key : Nat
  value : Int
  ttl : Nat
  deriving DecidableEq, Repr

/-- redisClient.get on the balance key. -/
def cacheGet (c : List CacheEntry) (uid : Nat) : Option Int :=
  (c.find? (fun e => e.key == uid)).map CacheEntry.value

/-- redisClient.setEx on the balance key. -/
def cacheSetEx (c : List CacheEntry) (uid : Nat) (ttl : Nat) (v : Int) :
    List CacheEntry :=
  { key := uid, value := v, ttl := ttl } :: c.filter (fun e => !(e.key == uid))

/-- Body of the GET /balance response. -/
structure BalanceView where
  balance : Int
  cached : Bool
  deriving DecidableEq, Repr

/-- GET /balance: consult the cache first; on a hit answer the snapshot with
cached = true; on a miss read the wallet from the ledger store, cache it for
300 seconds and answer with cached = false. Returns the response and the
cache state after the request. -/
def getBalance (db : DBState) (c : List CacheEntry) (uid : Nat) :
    Except WErr BalanceView × List CacheEntry :=
  match cacheGet c uid with
  | some v => (.ok { balance := v, cached := true }, c)
  | none =>
    match lookupBalance db.wallets uid with
    | none => (.error .walletNotFound, c)
    | some b => (.ok { balance := b, cached := false }, cacheSetEx c uid 300 b)

/-- The type query parameter of GET /transactions. -/
inductive HistoryFilter where
  | sent
  | received
  | add_money
  deriving DecidableEq, Repr

/-- The base WHERE clause (t.sender_id = $1 OR t.recipient_id = $1). -/
def baseMatch (uid : Nat) (t : Transaction) : Bool :=
  t.sender_id == some uid || t.recipient_id == some uid

/-- The full WHERE clause of GET /transactions including the per-type
refinement appended for the sent, received and add_money filters. -/
def matchesFilter (uid : Nat) (ty : Option HistoryFilter) (t : Transaction) :
    Bool :=
  baseMatch uid t &&
    (match ty with
     | none => true
     | some HistoryFilter.sent =>
         t.sender_id == some uid &&
           (t.transaction_type == TxType.send_money ||
            t.transaction_type == TxType.add_money)
     | some HistoryFilter.received =>
         t.recipient_id == some uid &&
           t.transaction_type == TxType.receive_money
     | some HistoryFilter.add_money =>
         t.sender_id == some uid && t.transaction_type == TxType.add_money)

/-- The rows matching one GET /transactions request before ordering. -/
def historyRows (db : DBState) (uid : Nat) (ty : Option HistoryFilter) :
    List Transaction :=
  db.transactions.filter (matchesFilter uid ty)

/-- A result order the database may return for ORDER BY t.created_at DESC:
created_at is non-increasing along the list. The query has no secondary
sort key, so any such order is a legal answer. -/
def descOrdered (l : List Transaction) : Prop :=
  l.Pairwise (fun a b => b.created_at ≤ a.created_at)

/-- l is a legal full result sequence for the matching rows. -/
def validOrdering (rows l : List Transaction) : Prop :=
  l.Perm rows ∧ descOrdered l

/-- LIMIT limit OFFSET (page - 1) * limit applied to a full result order. -/
def pageOf (l : List Transaction) (page limit : Nat) : List Transaction :=
  (l.drop ((page - 1) * limit)).take limit

/-- The possible page bodies for one GET /transactions request: some legal
order of the matching rows, cut by LIMIT and OFFSET. Separate requests may
be served from different legal orders. -/
def listingResult (db : DBState) (uid : Nat) (ty : Option HistoryFilter)
    (page limit : Nat) (out : List Transaction) : Prop :=
  ∃ l, validOrdering (historyRows db uid ty) l ∧ out = pageOf l page limit

/-- Counterpart display info attached to a transaction view (name/email may
be NULL when the joined user row is missing). -/
structure Party where
  name : Option String
  email : Option String
  deriving DecidableEq, Repr

/-- One formatted transaction of the GET /transactions response. -/
structure TxView where
  id : Nat
  type : TxType
  amount : Int
  status : TxStatus
  paymentMethod : Option String
  note : Option String
  referenceId : String
  createdAt : Nat
  recipient : Option Party
  sender : Option Party
  deriving DecidableEq, Repr

/-- LEFT JOIN users ON the given foreign key. -/
def userById (us : List User) (oid : Option Nat) : Option User :=
  match oid with
  | none => none
  | some i => us.find? (fun u => u.id == i)

/-- Response shaping of the transactions routes: a recipient sub-object is
spread in only for send_money rows, a sender sub-object only for
receive_money rows. -/
def shapeTx (us : List User) (t : Transaction) : TxView :=
  { id := t.id, type := t.transaction_type, amount := t.amount,
    status := t.status, paymentMethod := t.payment_method, note := t.note,
    referenceId := t.reference_id, createdAt := t.created_at,
    recipient :=
      if t.transaction_type == TxType.send_money then
        some { name := (userById us t.recipient_id).map User.name,
               email := (userById us t.recipient_id).map User.email }
      else none,
    sender :=
      if t.transaction_type == TxType.receive_money then
        some { name := (userById us t.sender_id).map User.name,
               email := (userById us t.sender_id).map User.email }
      else none }

/-- WHERE t.id = $1 AND (t.sender_id = $2 OR t.recipient_id = $2) of
GET /transactions/:id. -/
def findTxFor (txs : List Transaction) (id uid : Nat) : Option Transaction :=
  txs.find? (fun t => t.id == id &&
    (t.sender_id == some uid || t.recipient_id == some uid))

/-- GET /transactions/:id: the shaped transaction when the caller is a party
to it, none (HTTP 404, same as for an absent id) otherwise. -/
def getTransactionById (db : DBState) (uid id : Nat) : Option TxView :=
  (findTxFor db.transactions id uid).map (shapeTx db.users)

/-- The remainder of POST /send-money after its opening SELECT already
returned staleBalance: the insufficiency check uses that possibly stale
read, while the writes and their CHECK constraint run against the latest
committed state db. This is exactly what a second concurrent request
observes under READ COMMITTED, because the SELECT takes no FOR UPDATE lock. -/
def sendMoneyStale (db : DBState) (staleBalance : Int) (s r : Nat) (amt : Int)
    (note : Option String) (ref : String) (t1 t2 now : Nat) :
    Except WErr (DBState × SendResult) :=
  if s == r then .error .selfTransfer
  else if staleBalance < amt then .error .insufficientBalance
  else
    match findActiveUser db.users r with
    | none => .error .recipientNotFound
    | some recip => transferWrites false false false false db s r recip amt note ref t1 t2 now

/-- Two concurrent POST /send-money requests from the same sender in the
schedule where both opening SELECTs run before either request writes: both
read the same committed balance (no lock prevents this), the first request
then runs its writes to completion, and the second request writes against
whatever state the first one left committed. Returns both responses and the
final committed state. -/
def doubleSpendSchedule (db : DBState) (s r1 r2 : Nat) (a1 a2 : Int)
    (n1 n2 : Option String) (ref1 ref2 : String) (t1 t2 t3 t4 now1 now2 : Nat) :
    Except WErr SendResult × Except WErr SendResult × DBState :=
  match lookupBalance db.wallets s with
  | none => (.error .senderWalletNotFound, .error .senderWalletNotFound, db)
  | some b =>
    match sendMoneyStale db b s r1 a1 n1 ref1 t1 t2 now1 with
    | .ok (db1, res1) =>
      match sendMoneyStale db1 b s r2 a2 n2 ref2 t3 t4 now2 with
      | .ok (db2, res2) => (.ok res1, .ok res2, db2)
      | .error e => (.ok res1, .error e, db1)
    | .error e =>
      match sendMoneyStale db b s r2 a2 n2 ref2 t3 t4 now2 with
      | .ok (db2, res2) => (.error e, .ok res2, db2)
      | .error e2 => (.error e, .error e2, db)

/-- The error of a result, if any. -/
def errOf {e a : Type} : Except e a → Option e
  | .ok _ => none
  | .error x => some x

/-- The newBalance field answered by a successful POST /send-money. -/
def resultBalance : Except WErr (DBState × SendResult) → Option Int
  | .ok (_, res) => some res.newBalance
  | .error _ => none

/-- Sample active user. -/
def uA : User := { id := 1, email := "a@mail", name := "Alice", phone := "111", is_active := true }

/-- Sample active user. -/
def uB : User := { id := 2, email := "b@mail", name := "Bob", phone := "222", is_active := true }

/-- Sample active user. -/
def uC : User := { id := 3, email := "c@mail", name := "Cara", phone := "333", is_active := true }

/-- Sample store: three users, sender holds 100, both recipients hold 0. -/
def dbAB : DBState :=
  { users := [uA, uB, uC],
    wallets := [{ user_id := 1, balance := 100 }, { user_id := 2, balance := 0 },
                { user_id := 3, balance := 0 }],
    transactions := [] }

/-- Sample store holding one send_money / receive_money row pair of user 1
(reference id R) and wallets 60 / 40 / 0, used to exercise the read routes. -/
def dbAfterSend : DBState :=
  { users := [uA, uB, uC],
    wallets := [{ user_id := 1, balance := 60 }, { user_id := 2, balance := 40 },
                { user_id := 3, balance := 0 }],
    transactions := [sendRow 1 2 40 none "R" 7 99, recvRow 1 2 40 none "R" 8 99] }

/-- State right after registering user 1 on an empty store. -/
def dbReg : DBState :=
  { users := [uA], wallets := [{ user_id := 1, balance := 0 }], transactions := [] }

/-- State after registering user 1 and depositing 100. -/
def dbDep : DBState :=
  { users := [uA], wallets := [{ user_id := 1, balance := 100 }],
    transactions := [depRow 1 100 "UPI" "D1" 5 50] }

/-- Sample transaction of user 1, created at time 50. -/
def txA : Transaction :=
  { id := 1, sender_id := some 1, recipient_id := some 2, amount := 5,
    transaction_type := TxType.send_money, status := TxStatus.completed,
    payment_method := none, note := none, reference_id := "RA", created_at := 50 }

/-- Sample transaction of user 1 with the same created_at as txA. -/
def txB : Transaction := { txA with id := 2, reference_id := "RB" }

/-- Sample transaction of user 1 created later than txA. -/
def txC : Transaction := { txA with id := 3, reference_id := "RC", created_at := 60 }

/-- Store whose two history rows for user 1 share one created_at value. -/
def dbTie : DBState := { users := [uA, uB], wallets := [], transactions := [txA, txB] }

/-- Store whose two history rows for user 1 have distinct created_at values. -/
def dbDistinct : DBState := { users := [uA, uB], wallets := [], transactions := [txA, txC] }

instance descOrderedDec (l : List Transaction) : Decidable (descOrdered l) := by
  unfold descOrdered
  haveI : DecidableRel (fun a b : Transaction => b.created_at ≤ a.created_at) :=
    fun a b => Nat.decLe b.created_at a.created_at
  exact List.instDecidablePairwise l

/-- The balance update never changes which user a wallet row belongs to. -/
theorem updF_user_id (uid : Nat) (d : Int) (w : Wallet) :
    (updF uid d w).user_id = w.user_id := by
  unfold updF; split <;> rfl

/-- A successful checked UPDATE applies exactly the per-row update map. -/
theorem updateWalletsChecked_some_eq (ws : List Wallet) (uid : Nat) (d : Int)
    (ws2 : List Wallet) (h : updateWalletsChecked ws uid d = some ws2) :
    ws2 = ws.map (updF uid d) := by
  unfold updateWalletsChecked at h
  split at h
  · exact (Option.some.injEq _ _ ▸ h).symm
  · exact absurd h (by simp)

/-- A successful checked UPDATE certifies the CHECK (balance >= 0)
constraint for every row it touches. -/
theorem updateWalletsChecked_check (ws : List Wallet) (uid : Nat) (d : Int)
    (ws2 : List Wallet) (h : updateWalletsChecked ws uid d = some ws2) :
    ∀ w ∈ ws, w.user_id = uid → 0 ≤ w.balance + d := by
  unfold updateWalletsChecked at h
  split at h
  · rename_i hall
    intro w hw hwid
    have h2 := List.all_eq_true.mp hall w hw
    simp [hwid] at h2
    exact h2
  · exact absurd h (by simp)

/-- A checked UPDATE preserves non-negativity of every wallet balance. -/
theorem updateWalletsChecked_nonneg (ws : List Wallet) (uid : Nat) (d : Int)
    (ws2 : List Wallet) (h : updateWalletsChecked ws uid d = some ws2)
    (h0 : ∀ w ∈ ws, 0 ≤ w.balance) : ∀ w ∈ ws2, 0 ≤ w.balance := by
  have hmap := updateWalletsChecked_some_eq ws uid d ws2 h
  have hchk := updateWalletsChecked_check ws uid d ws2 h
  intro w2 hw2
  rw [hmap] at hw2
  obtain ⟨w, hw, rfl⟩ := List.mem_map.mp hw2
  unfold updF
  split
  · rename_i hcase
    have hid : w.user_id = uid := by simpa using hcase
    simpa using hchk w hw hid
  · exact h0 w hw

/-- A successful checked INSERT appends exactly the new row. -/
theorem insertTxChecked_some_eq (txs : List Transaction) (t : Transaction)
    (txs2 : List Transaction) (h : insertTxChecked txs t = some txs2) :
    txs2 = txs ++ [t] := by
  unfold insertTxChecked at h
  split at h
  · exact (Option.some.injEq _ _ ▸ h).symm
  · exact absurd h (by simp)

/-- The UNIQUE constraint on reference_id rejects an insert whose reference
id is already present. -/
theorem insertTxChecked_same_ref_none (txs : List Transaction) (t u : Transaction)
    (hmem : t ∈ txs) (href : t.reference_id = u.reference_id) :
    insertTxChecked txs u = none := by
  unfold insertTxChecked
  have hcond : ¬ (txs.all (fun v => !(v.reference_id == u.reference_id)) = true) := by
    intro hall
    have hv := List.all_eq_true.mp hall t hmem
    simp [href] at hv
  rw [if_neg hcond]

/-- Under the declared schema no transfer write sequence can commit: the
receive row reuses the reference id the send row just inserted inside the
same unit, so its insert always violates the UNIQUE constraint. -/
theorem transferWrites_never_ok (f1 f2 f3 f4 : Bool) (db : DBState) (s r : Nat)
    (recip : User) (amt : Int) (note : Option String) (ref : String)
    (t1 t2 now : Nat) (db2 : DBState) (res : SendResult) :
    transferWrites f1 f2 f3 f4 db s r recip amt note ref t1 t2 now ≠ .ok (db2, res) := by
  intro h
  unfold transferWrites at h
  split at h
  · exact absurd h (by simp)
  rename_i txs1 htxs1
  split at h
  · exact absurd h (by simp)
  rename_i txs2 htxs2
  cases f1 with
  | true => simp at htxs1
  | false =>
    simp at htxs1
    have htx1eq := insertTxChecked_some_eq _ _ _ htxs1
    cases f2 with
    | true => simp at htxs2
    | false =>
      simp at htxs2
      have hnone : insertTxChecked txs1 (recvRow s r amt note ref t2 now) = none := by
        apply insertTxChecked_same_ref_none txs1 (sendRow s r amt note ref t1 now)
        · rw [htx1eq]
          simp
        · rfl
      rw [hnone] at htxs2
      exact absurd htxs2 (by simp)

/-- POST /send-money can never answer success on the declared schema. -/
theorem sendMoneyF_never_ok (f1 f2 f3 f4 : Bool) (db : DBState) (s r : Nat)
    (amt : Int) (note : Option String) (ref : String) (t1 t2 now : Nat)
    (db2 : DBState) (res : SendResult) :
    sendMoneyF f1 f2 f3 f4 db s r amt note ref t1 t2 now ≠ .ok (db2, res) := by
  intro h
  unfold sendMoneyF at h
  split at h
  · exact absurd h (by simp)
  split at h
  · exact absurd h (by simp)
  split at h
  · exact absurd h (by simp)
  split at h
  · exact absurd h (by simp)
  rename_i recip hrecip
  exact transferWrites_never_ok f1 f2 f3 f4 db s r recip amt note ref t1 t2 now db2 res h

/-- Inversion of a committed POST /add-money. -/
theorem addMoneyF_ok_inv (f1 f2 : Bool) (db : DBState) (uid : Nat) (amt : Int)
    (pm ref : String) (tid now : Nat) (db2 : DBState) (res : DepositResult)
    (h : addMoneyF f1 f2 db uid amt pm ref tid now = .ok (db2, res)) :
    f1 = false ∧ f2 = false ∧
    ∃ ws1 nb,
      updateWalletsChecked db.wallets uid amt = some ws1 ∧
      lookupBalance ws1 uid = some nb ∧
      db2.users = db.users ∧ db2.wallets = ws1 ∧
      db2.transactions = db.transactions ++ [depRow uid amt pm ref tid now] ∧
      res = { transactionId := tid, amount := amt, newBalance := nb,
              paymentMethod := pm, referenceId := ref } := by
  unfold addMoneyF at h
  split at h
  · exact absurd h (by simp)
  rename_i txs1 htxs1
  split at h
  · exact absurd h (by simp)
  rename_i ws1 hws1
  split at h
  · exact absurd h (by simp)
  rename_i nb hnb
  simp only [Except.ok.injEq, Prod.mk.injEq] at h
  obtain ⟨hdb2, hres⟩ := h
  have hf1 : f1 = false := by
    cases f1 with
    | false => rfl
    | true => simp at htxs1
  have hf2 : f2 = false := by
    cases f2 with
    | false => rfl
    | true => simp at hws1
  rw [hf1] at htxs1
  rw [hf2] at hws1
  have htxs1c : insertTxChecked db.transactions (depRow uid amt pm ref tid now) =
      some txs1 := by
    simpa using htxs1
  have hws1c : updateWalletsChecked db.wallets uid amt = some ws1 := by
    simpa using hws1
  have htxeq := insertTxChecked_some_eq _ _ _ htxs1c
  refine ⟨hf1, hf2, ws1, nb, hws1c, hnb, ?_, ?_, ?_, hres.symm⟩
  · rw [← hdb2]
  · rw [← hdb2]
  · rw [← hdb2]
    simpa using htxeq

/-- Inversion of a successful registration: the new user gets exactly one
zero-balance wallet row. -/
theorem registerUser_some_inv (db : DBState) (uid : Nat) (email name phone : String)
    (db2 : DBState) (h : registerUser db uid email name phone = some db2) :
    db2.wallets = db.wallets ++ [{ user_id := uid, balance := 0 }] := by
  unfold registerUser at h
  split at h
  · exact absurd h (by simp)
  split at h
  · exact absurd h (by simp)
  simp only [Option.some.injEq] at h
  rw [← h]

/-- C1 (refuted on the declared schema): a transfer meeting every
precondition named in the claim — sender wallet holding 100, amount 40
within balance, distinct active recipient — does not complete successfully:
its receive-row insert violates the UNIQUE reference_id constraint, the
unit rolls back, both wallet balances are unchanged and no new balance is
returned, so no execution exhibits the claimed conservation deltas. -/
theorem transfer_conservation_failure :
    errOf (sendMoney dbAB 1 2 40 none "R" 7 8 99) = some WErr.storageError ∧
    sendMoneyPost dbAB 1 2 40 none "R" 7 8 99 = dbAB ∧
    lookupBalance (sendMoneyPost dbAB 1 2 40 none "R" 7 8 99).wallets 1 = some 100 ∧
    lookupBalance (sendMoneyPost dbAB 1 2 40 none "R" 7 8 99).wallets 2 = some 0 ∧
    resultBalance (sendMoney dbAB 1 2 40 none "R" 7 8 99) = none := by
  refine ⟨by decide, by decide, by decide, by decide, by decide⟩

/-- C3: whatever fails inside the atomic unit of a transfer — the
insufficient-balance guard, a fault injected at either transaction insert or
either balance update, or a constraint violation (including the unavoidable
UNIQUE violation at the receive-row insert) — the visible post-state equals
the pre-state; the insufficient-balance case is the distinct
insufficientBalance failure; and a committed transfer would hold exactly the
two transaction rows together with both balance updates (no orphan row, no
orphan balance change), though the declared schema in fact makes that commit
case unreachable. -/
theorem transfer_atomic_rollback (f1 f2 f3 f4 : Bool) (db : DBState) (s r : Nat)
    (amt : Int) (note : Option String) (ref : String) (t1 t2 now : Nat) :
    (∀ e, sendMoneyF f1 f2 f3 f4 db s r amt note ref t1 t2 now = .error e →
       sendMoneyPostF f1 f2 f3 f4 db s r amt note ref t1 t2 now = db) ∧
    (∀ b, s ≠ r → lookupBalance db.wallets s = some b → b < amt →
       sendMoneyF f1 f2 f3 f4 db s r amt note ref t1 t2 now = .error .insufficientBalance) ∧
    (∀ db2 res, sendMoneyF f1 f2 f3 f4 db s r amt note ref t1 t2 now = .ok (db2, res) →
       ∃ b ws1 ws2,
         lookupBalance db.wallets s = some b ∧
         updateWalletsChecked db.wallets s (-amt) = some ws1 ∧
         updateWalletsChecked ws1 r amt = some ws2 ∧
         db2.wallets = ws2 ∧
         db2.transactions =
           db.transactions ++ [sendRow s r amt note ref t1 now, recvRow s r amt note ref t2 now] ∧
         lookupBalance db2.wallets s = some (b - amt)) := by
  refine ⟨?_, ?_, ?_⟩
  · intro e he
    unfold sendMoneyPostF
    rw [he]
  · intro b hsr hb hlt
    have hsr2 : (s == r) = false := by simpa using hsr
    unfold sendMoneyF
    rw [hsr2, hb]
    simp [hlt]
  · intro db2 res h
    exact absurd h (sendMoneyF_never_ok f1 f2 f3 f4 db s r amt note ref t1 t2 now db2 res)

/-- Witness for C3: an insufficient transfer of 500 against balance 100 is
the distinct insufficient-funds failure, and a fault injected at the first
transaction insert leaves the store untouched. -/
theorem transfer_atomic_rollback_witness :
    sendMoneyF false false false false dbAB 1 2 500 none "S" 7 8 99 =
      Except.error WErr.insufficientBalance ∧
    sendMoneyPostF true false false false dbAB 1 2 40 none "S" 7 8 99 = dbAB := by
  constructor
  · exact (transfer_atomic_rollback false false false false dbAB 1 2 500 none "S" 7 8 99).2.1
      100 (by decide) (by decide) (by decide)
  · exact (transfer_atomic_rollback true false false false dbAB 1 2 40 none "S" 7 8 99).1
      WErr.storageError (by rfl)

/-- C5 (refuted on the declared schema): the deposit half holds — a
committed POST /add-money appends exactly one completed add_money row, shown
at a concrete deposit — but no transfer ever succeeds: the route inserts its
two rows with one shared reference id while the transactions table declares
reference_id UNIQUE, so the second (receive_money) insert always aborts the
unit; the attempted transfer below answers the generic storage failure and
appends zero rows instead of the claimed completed pair. -/
theorem transfer_paired_rows_impossible :
    errOf (sendMoney dbAB 1 2 40 none "R" 7 8 99) = some WErr.storageError ∧
    (sendMoneyPost dbAB 1 2 40 none "R" 7 8 99).transactions = dbAB.transactions ∧
    addMoney dbReg 1 100 "UPI" "D1" 5 50 =
      Except.ok (dbDep, { transactionId := 5, amount := 100, newBalance := 100, paymentMethod := "UPI", referenceId := "D1" }) ∧
    dbDep.transactions = dbReg.transactions ++ [depRow 1 100 "UPI" "D1" 5 50] ∧
    (depRow 1 100 "UPI" "D1" 5 50).transaction_type = TxType.add_money ∧
    (depRow 1 100 "UPI" "D1" 5 50).status = TxStatus.completed := by
  refine ⟨by decide, by decide, by rfl, by decide, by decide, by decide⟩

/-- C6: a transfer from a user to the same user is rejected as the
selfTransfer business failure; the rejection happens before any storage
access (the answer does not depend on the store at all), appends no
transaction row and changes no balance. -/
theorem self_transfer_rejected (db db2 : DBState) (s : Nat) (amt : Int)
    (note : Option String) (ref : String) (t1 t2 now : Nat) :
    sendMoney db s s amt note ref t1 t2 now = .error .selfTransfer ∧
    sendMoneyPost db s s amt note ref t1 t2 now = db ∧
    (sendMoneyPost db s s amt note ref t1 t2 now).transactions = db.transactions ∧
    sendMoney db2 s s amt note ref t1 t2 now = sendMoney db s s amt note ref t1 t2 now := by
  have he : sendMoneyF false false false false db s s amt note ref t1 t2 now =
      .error .selfTransfer := by
    unfold sendMoneyF
    simp
  have he2 : sendMoneyF false false false false db2 s s amt note ref t1 t2 now =
      .error .selfTransfer := by
    unfold sendMoneyF
    simp
  refine ⟨he, ?_, ?_, ?_⟩
  · unfold sendMoneyPost sendMoneyPostF
    rw [he]
  · unfold sendMoneyPost sendMoneyPostF
    rw [he]
  · show sendMoneyF false false false false db2 s s amt note ref t1 t2 now =
      sendMoneyF false false false false db s s amt note ref t1 t2 now
    rw [he, he2]

/-- C2: every wallet balance in every reachable state is non-negative; a
transfer whose amount exceeds the sender balance is rejected as the
insufficientBalance business failure and leaves the whole store (hence both
balances) unchanged; and the non-negativity constraint is enforced at the
storage layer, since any row a successful checked UPDATE touched satisfies
CHECK (balance >= 0). -/
theorem balance_invariant :
    (∀ db, Reachable db → ∀ w ∈ db.wallets, 0 ≤ w.balance) ∧
    (∀ db s r amt (note : Option String) (ref : String) (t1 t2 now : Nat) b,
       s ≠ r → lookupBalance db.wallets s = some b → b < amt →
       sendMoney db s r amt note ref t1 t2 now = .error .insufficientBalance ∧
       sendMoneyPost db s r amt note ref t1 t2 now = db) ∧
    (∀ ws uid d ws2, updateWalletsChecked ws uid d = some ws2 →
       ∀ w ∈ ws2, w.user_id = uid → 0 ≤ w.balance) := by
  refine ⟨?_, ?_, ?_⟩
  · intro db h
    induction h with
    | refl => intro w hw; simp [emptyState] at hw
    | tail hab hbc ih =>
      cases hbc with
      | reg uid email name phone hreg =>
        have hwal := registerUser_some_inv _ uid email name phone _ hreg
        intro w hw
        rw [hwal] at hw
        rcases List.mem_append.mp hw with h1 | h1
        · exact ih w h1
        · have : w = { user_id := uid, balance := 0 } := by simpa using h1
          simp [this]
      | dep uid amt pm ref tid now res hdep =>
        obtain ⟨_, _, ws1, nb, hupd, _, _, hwal, _, _⟩ :=
          addMoneyF_ok_inv false false _ uid amt pm ref tid now _ res hdep
        intro w hw
        rw [hwal] at hw
        exact updateWalletsChecked_nonneg _ _ _ _ hupd ih w hw
      | xfer s r amt note ref t1 t2 now res hx =>
        exact absurd hx
          (sendMoneyF_never_ok false false false false _ s r amt note ref t1 t2 now _ res)
  · intro db s r amt note ref t1 t2 now b hsr hb hlt
    have hsr2 : (s == r) = false := by simpa using hsr
    have he : sendMoney db s r amt note ref t1 t2 now = .error .insufficientBalance := by
      unfold sendMoney sendMoneyF
      rw [hsr2, hb]
      simp [hlt]
    refine ⟨he, ?_⟩
    unfold sendMoneyPost sendMoneyPostF
    rw [show sendMoneyF false false false false db s r amt note ref t1 t2 now =
      .error .insufficientBalance from he]
  · intro ws uid d ws2 h w hw hwid
    have hmap := updateWalletsChecked_some_eq _ _ _ _ h
    have hchk := updateWalletsChecked_check _ _ _ _ h
    rw [hmap] at hw
    obtain ⟨w0, hw0, rfl⟩ := List.mem_map.mp hw
    have hid0 : w0.user_id = uid := by rw [← updF_user_id uid d w0]; exact hwid
    have hbeq : (w0.user_id == uid) = true := by simpa using hid0
    have hok := hchk w0 hw0 hid0
    simpa [updF, hbeq] using hok

/-- Witness for C2: after registering user 1 and depositing 100 the single
reachable wallet holds a non-negative balance, and a transfer of 500 against
balance 100 is rejected as insufficientBalance. -/
theorem balance_invariant_witness :
    (0 : Int) ≤ ({ user_id := 1, balance := 100 } : Wallet).balance ∧
    sendMoney dbDep 1 2 500 none "S" 9 10 60 = Except.error WErr.insufficientBalance := by
  have hstep1 : Step emptyState dbReg :=
    Step.reg emptyState dbReg 1 "a@mail" "Alice" "111" (by decide)
  have hstep2 : Step dbReg dbDep :=
    Step.dep dbReg dbDep 1 100 "UPI" "D1" 5 50
      { transactionId := 5, amount := 100, newBalance := 100, paymentMethod := "UPI",
        referenceId := "D1" } (by rfl)
  have hreach : Reachable dbDep :=
    Relation.ReflTransGen.tail (Relation.ReflTransGen.tail Relation.ReflTransGen.refl hstep1)
      hstep2
  constructor
  · exact balance_invariant.1 dbDep hreach { user_id := 1, balance := 100 } (by decide)
  · exact (balance_invariant.2.1 dbDep 1 2 500 none "S" 9 10 60 100 (by decide) (by decide)
      (by decide)).1

/-- C7: GET /transactions/:id answers a transaction exactly when the caller
is its sender or its recipient; in every other case (including an absent
id) the result is the same not-found outcome, and any answered view carries
the requested id. -/
theorem get_transaction_access_control (db : DBState) (uid id : Nat) :
    ((getTransactionById db uid id).isSome = true ↔
      ∃ t ∈ db.transactions, t.id = id ∧
        (t.sender_id = some uid ∨ t.recipient_id = some uid)) ∧
    (∀ v, getTransactionById db uid id = some v → v.id = id) := by
  constructor
  · unfold getTransactionById findTxFor
    rw [Option.isSome_map']
    rw [List.find?_isSome]
    constructor
    · rintro ⟨t, ht, hp⟩
      refine ⟨t, ht, ?_⟩
      simpa using hp
    · rintro ⟨t, ht, hp⟩
      refine ⟨t, ht, ?_⟩
      simpa using hp
  · intro v hv
    unfold getTransactionById at hv
    obtain ⟨t, ht, hvt⟩ := Option.map_eq_some'.mp hv
    have hp := List.find?_some ht
    have hid : t.id = id := by
      simp at hp
      exact hp.1
    rw [← hvt]
    simpa [shapeTx] using hid

/-- Witness for C7: user 1 can fetch the send row of dbAfterSend by id, and
every view answered for that id carries id 7. -/
theorem get_transaction_access_control_witness :
    (getTransactionById dbAfterSend 1 7).isSome = true ∧
    (∀ v, getTransactionById dbAfterSend 1 7 = some v → v.id = 7) := by
  have h := get_transaction_access_control dbAfterSend 1 7
  refine ⟨h.1.mpr ⟨sendRow 1 2 40 none "R" 7 99, by decide, by decide, by decide⟩, h.2⟩

/-- C9: GET /balance is a read-through cache: a cache hit answers the cached
snapshot with cached = true without consulting the ledger store (the answer
does not depend on it), and a cache miss reads the wallet balance, populates
the cache with the bounded 300-second TTL and answers with cached = false. -/
theorem get_balance_cache_behavior (db db2 : DBState) (c : List CacheEntry) (uid : Nat) :
    (∀ v, cacheGet c uid = some v →
       getBalance db c uid = (Except.ok { balance := v, cached := true }, c) ∧
       getBalance db2 c uid = getBalance db c uid) ∧
    (∀ b, cacheGet c uid = none → lookupBalance db.wallets uid = some b →
       getBalance db c uid = (Except.ok { balance := b, cached := false }, cacheSetEx c uid 300 b) ∧
       cacheGet (cacheSetEx c uid 300 b) uid = some b) := by
  constructor
  · intro v hv
    unfold getBalance
    rw [hv]
    exact ⟨rfl, rfl⟩
  · intro b hv hb
    unfold getBalance
    rw [hv, hb]
    refine ⟨rfl, ?_⟩
    unfold cacheGet cacheSetEx
    simp [List.find?_cons]

/-- Witness for C9: against dbAB, a cached entry 55 for user 1 is answered
as cached, and with an empty cache the wallet balance 100 is read, cached
and answered as uncached. -/
theorem get_balance_cache_behavior_witness :
    getBalance dbAB [{ key := 1, value := 55, ttl := 300 }] 1 =
      (Except.ok { balance := 55, cached := true }, [{ key := 1, value := 55, ttl := 300 }]) ∧
    getBalance dbAB [] 1 = (Except.ok { balance := 100, cached := false }, cacheSetEx [] 1 300 100) := by
  have h1 := get_balance_cache_behavior dbAB emptyState [{ key := 1, value := 55, ttl := 300 }] 1
  have h2 := get_balance_cache_behavior dbAB emptyState [] 1
  exact ⟨(h1.1 55 (by decide)).1, (h2.2 100 (by decide) (by decide)).1⟩

/-- C10: a committed deposit stores the depositing user in sender_id and
leaves recipient_id unset; the sent and add_money history filters match an
add_money row exactly through its sender_id; and the shaped view of an
add_money row carries neither counterpart sub-object, those being attached
only to send_money (recipient) and receive_money (sender) rows. -/
theorem add_money_row_shape :
    (∀ db uid amt (pm ref : String) (tid now : Nat) db2 res,
       addMoney db uid amt pm ref tid now = .ok (db2, res) →
       db2.transactions = db.transactions ++ [depRow uid amt pm ref tid now] ∧
       (depRow uid amt pm ref tid now).sender_id = some uid ∧
       (depRow uid amt pm ref tid now).recipient_id = none) ∧
    (∀ uid t, t.transaction_type = TxType.add_money →
       matchesFilter uid (some HistoryFilter.sent) t = (t.sender_id == some uid) ∧
       matchesFilter uid (some HistoryFilter.add_money) t = (t.sender_id == some uid)) ∧
    (∀ us t, t.transaction_type = TxType.add_money →
       (shapeTx us t).recipient = none ∧ (shapeTx us t).sender = none) ∧
    (∀ us t, ((shapeTx us t).recipient.isSome = true → t.transaction_type = TxType.send_money) ∧
       ((shapeTx us t).sender.isSome = true → t.transaction_type = TxType.receive_money)) := by
  refine ⟨?_, ?_, ?_, ?_⟩
  · intro db uid amt pm ref tid now db2 res h
    obtain ⟨_, _, ws1, nb, _, _, _, _, htx, _⟩ :=
      addMoneyF_ok_inv false false db uid amt pm ref tid now db2 res h
    exact ⟨htx, rfl, rfl⟩
  · intro uid t ht
    cases hs : (t.sender_id == some uid) <;>
      cases hr : (t.recipient_id == some uid) <;>
        simp [matchesFilter, baseMatch, ht, hs, hr]
  · intro us t ht
    simp [shapeTx, ht]
  · intro us t
    constructor
    · intro hh
      cases ht : t.transaction_type <;> simp [shapeTx, ht] at hh ⊢
    · intro hh
      cases ht : t.transaction_type <;> simp [shapeTx, ht] at hh ⊢

/-- Witness for C10: the deposit row of dbDep is stored under sender_id with
no recipient, and the sent filter matches it exactly through sender_id. -/
theorem add_money_row_shape_witness :
    dbDep.transactions = dbReg.transactions ++ [depRow 1 100 "UPI" "D1" 5 50] ∧
    matchesFilter 1 (some HistoryFilter.sent) (depRow 1 100 "UPI" "D1" 5 50) =
      ((depRow 1 100 "UPI" "D1" 5 50).sender_id == some 1) := by
  refine ⟨?_, ?_⟩
  · exact (add_money_row_shape.1 dbReg 1 100 "UPI" "D1" 5 50 dbDep
      { transactionId := 5, amount := 100, newBalance := 100, paymentMethod := "UPI",
        referenceId := "D1" } (by rfl)).1
  · exact (add_money_row_shape.2.1 1 (depRow 1 100 "UPI" "D1" 5 50) (by rfl)).1

/-- C4 (refuted on the code): in dbAB two concurrent transfers of 80 each
from the sender holding 100, in the schedule where both unlocked balance
SELECTs run before either request writes — nothing serializes the read, the
SELECT takes no FOR UPDATE lock — both requests pass the insufficiency
guard against the same stale balance; yet neither request commits, because
each aborts at its own receive-row insert against the UNIQUE reference_id
constraint: both surface the generic storage failure instead of the claimed
insufficient-funds response, and the final sender balance stays 100 rather
than the claimed 20. -/
theorem concurrent_transfer_divergence :
    errOf (doubleSpendSchedule dbAB 1 2 3 80 80 none none "R1" "R2" 11 12 13 14 100 101).1 =
      some WErr.storageError ∧
    errOf (doubleSpendSchedule dbAB 1 2 3 80 80 none none "R1" "R2" 11 12 13 14 100 101).2.1 =
      some WErr.storageError ∧
    errOf (doubleSpendSchedule dbAB 1 2 3 80 80 none none "R1" "R2" 11 12 13 14 100 101).1 ≠
      some WErr.insufficientBalance ∧
    errOf (doubleSpendSchedule dbAB 1 2 3 80 80 none none "R1" "R2" 11 12 13 14 100 101).2.1 ≠
      some WErr.insufficientBalance ∧
    lookupBalance (doubleSpendSchedule dbAB 1 2 3 80 80 none none "R1" "R2" 11 12 13 14 100 101).2.2.wallets 1 =
      some 100 ∧
    lookupBalance (doubleSpendSchedule dbAB 1 2 3 80 80 none none "R1" "R2" 11 12 13 14 100 101).2.2.wallets 1 ≠
      some 20 := by
  refine ⟨by decide, by decide, by decide, by decide, by decide, by decide⟩

/-- Two legal result orders for ORDER BY created_at DESC agree whenever the
created_at keys are pairwise distinct. -/
theorem perm_descOrdered_nodup_eq :
    ∀ (l1 l2 : List Transaction), l1.Perm l2 → descOrdered l1 → descOrdered l2 →
      (l1.map Transaction.created_at).Nodup → l1 = l2 := by
  intro l1
  induction l1 with
  | nil =>
    intro l2 hp _ _ _
    exact (hp.symm.eq_nil).symm
  | cons a t1 ih =>
    intro l2 hp hs1 hs2 hnd
    cases l2 with
    | nil =>
      have := hp.length_eq
      simp at this
    | cons b t2 =>
      have hab : a = b := by
        have hain : a ∈ b :: t2 := hp.mem_iff.mp (List.mem_cons_self a t1)
        have hbin : b ∈ a :: t1 := hp.mem_iff.mpr (List.mem_cons_self b t2)
        rcases List.mem_cons.mp hain with h1 | h1
        · exact h1
        rcases List.mem_cons.mp hbin with h2 | h2
        · exact h2.symm
        have hba : b.created_at ≤ a.created_at := (List.pairwise_cons.mp hs1).1 b h2
        have hab2 : a.created_at ≤ b.created_at := (List.pairwise_cons.mp hs2).1 a h1
        have hkey : a.created_at = b.created_at := le_antisymm hab2 hba
        exfalso
        have hmem : a.created_at ∈ t1.map Transaction.created_at := by
          rw [hkey]
          exact List.mem_map_of_mem _ h2
        have hnotin : a.created_at ∉ t1.map Transaction.created_at := by
          rw [List.map_cons] at hnd
          exact (List.nodup_cons.mp hnd).1
        exact hnotin hmem
      subst hab
      have hp2 : t1.Perm t2 := hp.cons_inv
      have hnd2 : (t1.map Transaction.created_at).Nodup := by
        rw [List.map_cons] at hnd
        exact (List.nodup_cons.mp hnd).2
      rw [ih t2 hp2 hs1.of_cons hs2.of_cons hnd2]

/-- C8 counterexample: with two matching rows sharing one created_at value,
both page 1 and page 2 (limit 1) may legally answer the same row, so
consecutive pages can overlap and miss the other row — the ORDER BY has no
tie-breaking secondary key. -/
theorem pagination_tie_overlap :
    listingResult dbTie 1 none 1 1 [txA] ∧
    listingResult dbTie 1 none 2 1 [txA] ∧
    txB ∈ historyRows dbTie 1 none ∧
    txB ∉ [txA] ++ [txA] ∧ txA ∈ [txA] := by
  refine ⟨⟨[txA, txB], ⟨by decide, by decide⟩, by decide⟩,
    ⟨[txB, txA], ⟨by decide, by decide⟩, by decide⟩, by decide, by decide, by decide⟩

/-- C8 amended: the query orders by created_at descending with no secondary
key; whenever the matching rows have pairwise distinct creation times the
result order is unique, so consecutive pages 1 and 2 with a common limit
are the first and second segments of that order — no overlap — and cover
all matching rows whenever they fit in the two pages. -/
theorem pagination_distinct_partition (db : DBState) (uid : Nat)
    (ty : Option HistoryFilter) (lim : Nat) (l1 l2 : List Transaction)
    (h1 : validOrdering (historyRows db uid ty) l1)
    (h2 : validOrdering (historyRows db uid ty) l2)
    (hnd : ((historyRows db uid ty).map Transaction.created_at).Nodup) :
    l1 = l2 ∧
    pageOf l1 1 lim ++ pageOf l2 2 lim = l1.take (2 * lim) ∧
    ((historyRows db uid ty).length ≤ 2 * lim →
      (pageOf l1 1 lim ++ pageOf l2 2 lim).Perm (historyRows db uid ty)) := by
  obtain ⟨hp1, hs1⟩ := h1
  obtain ⟨hp2, hs2⟩ := h2
  have hnd1 : (l1.map Transaction.created_at).Nodup := by
    have hmp : (l1.map Transaction.created_at).Perm
        ((historyRows db uid ty).map Transaction.created_at) := hp1.map _
    exact hmp.nodup_iff.mpr hnd
  have heq : l1 = l2 := perm_descOrdered_nodup_eq l1 l2 (hp1.trans hp2.symm) hs1 hs2 hnd1
  have hpage : pageOf l1 1 lim ++ pageOf l2 2 lim = l1.take (2 * lim) := by
    rw [← heq]
    unfold pageOf
    have hz : (1 - 1) * lim = 0 := by norm_num
    have ho : (2 - 1) * lim = lim := by norm_num
    rw [hz, ho, List.drop_zero, two_mul]
    exact (List.take_add l1 lim lim).symm
  refine ⟨heq, hpage, ?_⟩
  intro hlen
  rw [hpage]
  have hl1len : l1.length = (historyRows db uid ty).length := hp1.length_eq
  rw [List.take_of_length_le (by rw [hl1len]; exact hlen)]
  exact hp1

/-- Witness for the amended C8: over dbDistinct (rows created at 60 and 50)
the unique legal order is txC then txA, and pages 1 and 2 with limit 1
partition the two matching rows. -/
theorem pagination_distinct_partition_witness :
    pageOf [txC, txA] 1 1 ++ pageOf [txC, txA] 2 1 = [txC, txA].take (2 * 1) ∧
    (pageOf [txC, txA] 1 1 ++ pageOf [txC, txA] 2 1).Perm (historyRows dbDistinct 1 none) := by
  have h := pagination_distinct_partition dbDistinct 1 none 1 [txC, txA] [txC, txA]
    ⟨by decide, by decide⟩ ⟨by decide, by decide⟩ (by decide)
  exact ⟨h.2.1, h.2.2 (by decide)⟩
